import Mathlib

/-!
Verification development for the complaint-portal backend.

Each definition below is a shallow embedding of one Python function or
SQLAlchemy model of the repository (file and symbol named in its doc
comment).  Machine integers are modelled as `Int`, timestamps as `Int`
(seconds), database rows as structures, database sessions as explicit
state, and raised exceptions as `Except` errors.  Python `str.lower()` /
`str.strip()` are modelled for ASCII text by `lowerStr` / `stripStr`.
-/

namespace Portal

/-- ASCII model of Python's `str.lower()` on a single character. -/
def lowerChar (c : Char) : Char :=
  if 'A' ≤ c ∧ c ≤ 'Z' then Char.ofNat (c.toNat + 32) else c

/-- ASCII model of Python's `str.lower()`. -/
def lowerStr (s : String) : String := ⟨s.data.map lowerChar⟩

/-- ASCII whitespace, as stripped by Python's `str.strip()`. -/
def isSpaceChar (c : Char) : Bool :=
  c = ' ' || c = '\t' || c = '\n' || c = '\r'

/-- ASCII model of Python's `str.strip()`. -/
def stripStr (s : String) : String :=
  ⟨((s.data.dropWhile isSpaceChar).reverse.dropWhile isSpaceChar).reverse⟩

/-- Python `math.ceil(a / b)` on integers (`b ≠ 0`): `-((-a) // b)`. -/
def pyCeilDiv (a b : Int) : Int := -(Int.fdiv (-a) b)

/-- Python `str.split(sep)` on a character list (`"" → [""]`). -/
def splitOnChar (sep : Char) : List Char → List (List Char)
  | [] => [[]]
  | c :: rest =>
    let r := splitOnChar sep rest
    if c = sep then [] :: r
    else
      match r with
      | [] => [[c]]
      | h :: t => (c :: h) :: t

/-- The numeric value of a nonempty all-digit character list (`none`
otherwise), modelling Python `int(s)` on nonnegative input. -/
def digitsVal? (cs : List Char) : Option Nat :=
  if cs = [] then none
  else
    cs.foldl (fun acc c =>
      match acc with
      | none => none
      | some n => if '0' ≤ c ∧ c ≤ '9' then some (n * 10 + (c.toNat - 48)) else none)
      (some 0)

/-- Python list slice `xs[a:b]` (negative indices count from the end). -/
def pySlice {α : Type} (xs : List α) (a b : Int) : List α :=
  let n : Int := xs.length
  let norm : Int → Int := fun i => if i < 0 then max (n + i) 0 else min i n
  ((xs.take (norm b).toNat).drop (norm a).toNat)

/-! ## `app/enums.py` -/

/-- `app/enums.py` `Permission`: the ten fine-grained permissions. -/
inductive Permission where
  | view_all_complaints
  | view_own_complaints
  | view_department_complaints
  | create_complaint
  | update_complaint
  | delete_complaint
  | assign_complaint
  | manage_users
  | view_users
  | change_complaint_status
deriving Repr, DecidableEq

/-- `app/enums.py` `ROLE_PERMISSIONS.get(role, [])`.  `UserRole` is a
`str` enum, so roles are modelled by their string values
(`"admin"`, `"user"`, `"department_manager"`). -/
def ROLE_PERMISSIONS (role : String) : List Permission :=
  if role = "admin" then
    [.view_all_complaints, .view_own_complaints, .view_department_complaints,
     .create_complaint, .update_complaint, .delete_complaint,
     .assign_complaint, .manage_users, .view_users, .change_complaint_status]
  else if role = "user" then
    [.view_own_complaints, .create_complaint, .update_complaint]
  else if role = "department_manager" then
    [.view_department_complaints, .create_complaint, .update_complaint,
     .assign_complaint, .view_users, .change_complaint_status]
  else []

/-- `app/enums.py` `has_permission`. -/
def has_permission (role : String) (p : Permission) : Bool :=
  (ROLE_PERMISSIONS role).contains p

/-- `app/enums.py` `ComplaintStatus`: the six declared enum members. -/
inductive ComplaintStatus where
  | pending
  | assigned
  | in_progress
  | resolved
  | closed
  | rejected
deriving Repr, DecidableEq

/-- The `.value` string of each `ComplaintStatus` member. -/
def ComplaintStatus.value : ComplaintStatus → String
  | .pending => "pending"
  | .assigned => "assigned"
  | .in_progress => "in_progress"
  | .resolved => "resolved"
  | .closed => "closed"
  | .rejected => "rejected"

/-- The enum-constructor call `ComplaintStatus(s)`: value lookup,
`none` models the raised `ValueError`. -/
def ComplaintStatus.fromValue (s : String) : Option ComplaintStatus :=
  if s = "pending" then some .pending
  else if s = "assigned" then some .assigned
  else if s = "in_progress" then some .in_progress
  else if s = "resolved" then some .resolved
  else if s = "closed" then some .closed
  else if s = "rejected" then some .rejected
  else none

/-- Python attribute access `ComplaintStatus.<NAME>`: member-name lookup,
`none` models the raised `AttributeError`.  Note there is no `OPEN`
member, although `workflow_service.py` references `ComplaintStatus.OPEN`. -/
def ComplaintStatus.memberNamed (name : String) : Option ComplaintStatus :=
  if name = "PENDING" then some .pending
  else if name = "ASSIGNED" then some .assigned
  else if name = "IN_PROGRESS" then some .in_progress
  else if name = "RESOLVED" then some .resolved
  else if name = "CLOSED" then some .closed
  else if name = "REJECTED" then some .rejected
  else none

/-- `app/enums.py` `STATUS_TRANSITIONS`: for each current status, the
allowed next statuses with the roles allowed to perform each move. -/
def STATUS_TRANSITIONS : ComplaintStatus → List (ComplaintStatus × List String)
  | .pending =>
    [(.assigned, ["admin", "department_manager"]),
     (.rejected, ["admin", "department_manager"])]
  | .assigned =>
    [(.in_progress, ["admin", "department_manager"]),
     (.rejected, ["admin", "department_manager"])]
  | .in_progress =>
    [(.resolved, ["admin", "department_manager"]),
     (.assigned, ["admin", "department_manager"])]
  | .resolved =>
    [(.closed, ["admin", "department_manager", "user"]),
     (.in_progress, ["admin", "department_manager"])]
  | .closed => []
  | .rejected => []

/-- `app/enums.py` `can_transition_status`: role-aware transition check. -/
def can_transition_status (current_status new_status : String)
    (user_role : String) : Bool :=
  match ComplaintStatus.fromValue (lowerStr current_status),
        ComplaintStatus.fromValue (lowerStr new_status) with
  | some current, some new =>
    match (STATUS_TRANSITIONS current).find? (fun p => p.1 = new) with
    | some (_, allowed_roles) => allowed_roles.contains user_role
    | none => false
  | _, _ => false

/-- Modelled from the spec: `is_valid_transition` is imported by
`app/services/workflow_service.py` from `app.enums` but is not defined in
any file under the repository; per spec §4.5/§8.5 it is the role-free
validity check: true iff the case-insensitively parsed pair of statuses
appears in the transition table, false (not raising) for unrecognized
status names. -/
def is_valid_transition (current_status new_status : String) : Bool :=
  match ComplaintStatus.fromValue (lowerStr current_status),
        ComplaintStatus.fromValue (lowerStr new_status) with
  | some current, some new =>
    ((STATUS_TRANSITIONS current).find? (fun p => p.1 = new)).isSome
  | _, _ => false

/-! ## `app/core/config.py` -/

/-- `app/core/config.py` `Settings`, with the documented defaults
(no environment overrides).  Durations are in minutes. -/
structure Settings where
  SECRET_KEY : String
  ALGORITHM : String
  ACCESS_TOKEN_EXPIRE_MINUTES : Int
  OTP_EXPIRE_MINUTES : Int
deriving Repr, DecidableEq

/-- The process-wide `settings` object with default values. -/
def settings : Settings :=
  { SECRET_KEY := "change-me"
    ALGORITHM := "HS256"
    ACCESS_TOKEN_EXPIRE_MINUTES := 15
    OTP_EXPIRE_MINUTES := 5 }

/-! ## `app/core/security.py` -/

/-- A signed JWT, modelled as its payload (an association list of integer
claims) together with the signing key and algorithm used to encode it. -/
structure Token where
  claims : List (String × Int)
  key : String
  alg : String
deriving Repr, DecidableEq

/-- Python `payload.get(k)` on the claims dictionary. -/
def claimsGet (claims : List (String × Int)) (k : String) : Option Int :=
  (claims.find? (fun p => p.1 = k)).map (fun p => p.2)

/-- Python `dict.update({k: v})` on the claims dictionary. -/
def claimsSet (claims : List (String × Int)) (k : String) (v : Int) :
    List (String × Int) :=
  claims.filter (fun p => p.1 ≠ k) ++ [(k, v)]

/-- `app/core/security.py` `create_access_token`: copies the claims map,
adds an `exp` claim at `now` plus the supplied delta (seconds) or the
configured default of `ACCESS_TOKEN_EXPIRE_MINUTES` minutes, and signs
with the configured secret and algorithm. -/
def create_access_token (data : List (String × Int))
    (expires_delta : Option Int) (now : Int) : Token :=
  let expire : Int :=
    match expires_delta with
    | some d => now + d
    | none => now + settings.ACCESS_TOKEN_EXPIRE_MINUTES * 60
  { claims := claimsSet data "exp" expire
    key := settings.SECRET_KEY
    alg := settings.ALGORITHM }

/-- `app/core/security.py` `verify_token`: decodes against the configured
secret/algorithm (wrong key or algorithm, or an expired `exp`, model the
raised `JWTError`), then requires a `user_id` claim; returns the payload. -/
def verify_token (token : Token) (now : Int) :
    Except String (List (String × Int)) :=
  let expired : Bool :=
    match claimsGet token.claims "exp" with
    | some e => e ≤ now
    | none => false
  if token.key ≠ settings.SECRET_KEY ∨ token.alg ≠ settings.ALGORITHM then
    .error "Invalid token: signature verification failed"
  else if expired then
    .error "Invalid token: expired"
  else if claimsGet token.claims "user_id" = none then
    .error "Invalid token: No user_id in token"
  else
    .ok token.claims

/-! ## Persistence entities (`app/models/`) and the database state -/

/-- `app/models/users.py` `User`: exactly the declared columns.  Note the
model declares no phone column, although `auth_service.py` queries
`User.phone_number` (see `userPhoneNumberAttr`). -/
structure User where
  id : Int
  full_name : String
  email : String
  hashed_password : String
  is_verified : Bool
  failed_login_attempts : Int
  login_locked_until : Option Int
  role : String
  department : Option String
  otp_secret : Option String
  otp_expires_at : Option Int
  failed_otp_attempts : Int
  otp_locked_until : Option Int
deriving Repr, DecidableEq

/-- `app/models/complaints.py` `Complaint`. -/
structure Complaint where
  id : Int
  user_id : Int
  submitted_by : Option Int
  issue_type_id : Int
  description : String
  address : String
  status : String
  department : Option String
  assigned_to : Option Int
  assigned_at : Option Int
  urgency : String
  resolved_at : Option Int
  resolved_by : Option Int
  resolution_notes : Option String
  closed_at : Option Int
  closed_by : Option Int
  created_at : Int
  updated_at : Int
deriving Repr, DecidableEq

/-- `app/models/issue_types.py` `IssueType`. -/
structure IssueType where
  id : Int
  name : String
  department_id : Int
  is_active : Bool
deriving Repr, DecidableEq

/-- `app/models/departments.py` `Department`. -/
structure Department where
  id : Int
  name : String
deriving Repr, DecidableEq

/-- `app/models/complaint_status_history.py` `ComplaintStatusHistory`. -/
structure HistoryRow where
  id : Int
  complaint_id : Int
  changed_by : Int
  old_status : Option String
  new_status : String
  comment : Option String
  reason : Option String
  assigned_to : Option Int
  changed_at : Int
deriving Repr, DecidableEq

/-- The relational store seen through a session: one list per table plus
the next autoincrement ids. -/
structure DB where
  users : List User
  complaints : List Complaint
  issueTypes : List IssueType
  departments : List Department
  histories : List HistoryRow
  nextComplaintId : Int
  nextHistoryId : Int
deriving Repr, DecidableEq

/-- `db.query(User).filter(User.id == uid).first()`. -/
def DB.findUser (db : DB) (uid : Int) : Option User :=
  db.users.find? (fun u => u.id = uid)

/-- `db.query(Complaint).filter(Complaint.id == cid).first()`. -/
def DB.findComplaint (db : DB) (cid : Int) : Option Complaint :=
  db.complaints.find? (fun c => c.id = cid)

/-- `db.query(IssueType).filter_by(id=...).first()`. -/
def DB.findIssueType (db : DB) (iid : Int) : Option IssueType :=
  db.issueTypes.find? (fun t => t.id = iid)

/-- `db.query(Department).filter(Department.id == did).first()`. -/
def DB.findDepartment (db : DB) (did : Int) : Option Department :=
  db.departments.find? (fun d => d.id = did)

/-- Committing a mutation of the user row with id `uid`. -/
def DB.setUser (db : DB) (uid : Int) (u : User) : DB :=
  { db with users := db.users.map (fun x => if x.id = uid then u else x) }

/-- Committing a mutation of the complaint row with id `cid`. -/
def DB.setComplaint (db : DB) (cid : Int) (c : Complaint) : DB :=
  { db with complaints := db.complaints.map (fun x => if x.id = cid then c else x) }

/-- An HTTP-level failure: `HTTPException(status_code, detail)`, as every
service and router in the repository raises it. -/
structure ApiError where
  statusCode : Nat
  detail : String
deriving Repr, DecidableEq

/-! ## `app/deps.py` and the login token (`app/routers/auth.py`) -/

/-- `app/deps.py` `get_current_user`: verifies the bearer token, reads the
`sub` claim from the payload, converts it to an int, and loads that user;
any token failure, a missing `sub`, or a missing user yields 401. -/
def get_current_user (token : Token) (db : DB) (now : Int) :
    Except ApiError User :=
  match verify_token token now with
  | .error _ => .error ⟨401, "Invalid or expired token"⟩
  | .ok payload =>
    match claimsGet payload "sub" with
    | none => .error ⟨401, "Invalid token payload"⟩
    | some sub =>
      match db.findUser sub with
      | none => .error ⟨401, "User not found"⟩
      | some user => .ok user

/-- `app/routers/auth.py` `login`, token-issuance step (lines 411-414):
the bearer token is created from the claims map `{"user_id": user.id}`
with the default expiry. -/
def loginAccessToken (user : User) (now : Int) : Token :=
  create_access_token [("user_id", user.id)] none now

/-! ## Claim theorems: status-transition validity (C3) -/

/-- C3: `is_valid_transition` returns true iff the lowercased pair parses
into the transition table
pending→assigned|rejected, assigned→in_progress|rejected,
in_progress→resolved|assigned, resolved→closed|in_progress; it is
case-insensitive in both arguments and returns false (not raising) on
unrecognized names; `can_transition_status` gives admins and department
managers exactly the table transitions, and the `user` (citizen) role
exactly resolved→closed. -/
theorem claim_C3_transition_validity :
    (∀ s1 s2 : String, is_valid_transition s1 s2 = true ↔
      ((ComplaintStatus.fromValue (lowerStr s1), ComplaintStatus.fromValue (lowerStr s2)) ∈
        ([(some .pending, some .assigned), (some .pending, some .rejected),
          (some .assigned, some .in_progress), (some .assigned, some .rejected),
          (some .in_progress, some .resolved), (some .in_progress, some .assigned),
          (some .resolved, some .closed), (some .resolved, some .in_progress)] :
          List (Option ComplaintStatus × Option ComplaintStatus)))) ∧
    (∀ s1 s2 t1 t2 : String, lowerStr s1 = lowerStr t1 → lowerStr s2 = lowerStr t2 →
      is_valid_transition s1 s2 = is_valid_transition t1 t2) ∧
    (∀ s1 s2 : String,
      (ComplaintStatus.fromValue (lowerStr s1) = none ∨
       ComplaintStatus.fromValue (lowerStr s2) = none) →
      is_valid_transition s1 s2 = false) ∧
    (∀ s1 s2 : String,
      can_transition_status s1 s2 "admin" = is_valid_transition s1 s2 ∧
      can_transition_status s1 s2 "department_manager" = is_valid_transition s1 s2) ∧
    (∀ s1 s2 : String, can_transition_status s1 s2 "user" = true ↔
      (ComplaintStatus.fromValue (lowerStr s1) = some .resolved ∧
       ComplaintStatus.fromValue (lowerStr s2) = some .closed)) := by
  refine ⟨?_, ?_, ?_, ?_, ?_⟩
  · intro s1 s2
    rcases h1 : ComplaintStatus.fromValue (lowerStr s1) with _ | c <;>
      rcases h2 : ComplaintStatus.fromValue (lowerStr s2) with _ | n <;>
      simp only [is_valid_transition, h1, h2] <;>
      (try cases c) <;> (try cases n) <;> decide
  · intro s1 s2 t1 t2 h1 h2
    simp only [is_valid_transition, h1, h2]
  · intro s1 s2 h
    rcases h with h | h <;> simp only [is_valid_transition, h]
    rcases ComplaintStatus.fromValue (lowerStr s1) with _ | c <;> rfl
  · intro s1 s2
    rcases h1 : ComplaintStatus.fromValue (lowerStr s1) with _ | c <;>
      rcases h2 : ComplaintStatus.fromValue (lowerStr s2) with _ | n <;>
      simp only [is_valid_transition, can_transition_status, h1, h2] <;>
      (try cases c) <;> (try cases n) <;> decide
  · intro s1 s2
    rcases h1 : ComplaintStatus.fromValue (lowerStr s1) with _ | c <;>
      rcases h2 : ComplaintStatus.fromValue (lowerStr s2) with _ | n <;>
      simp only [can_transition_status, h1, h2] <;>
      (try cases c) <;> (try cases n) <;> decide

/-- C3 witness: the theorem instantiated at concrete statuses —
case-insensitivity at `"PENDING"/"Assigned"`, falsity at the unknown name
`"bogus"`, and the citizen confirmation move `resolved→closed`. -/
theorem claim_C3_witness :
    is_valid_transition "PENDING" "Assigned" = is_valid_transition "pending" "assigned" ∧
    is_valid_transition "bogus" "assigned" = false ∧
    can_transition_status "resolved" "closed" "user" = true :=
  ⟨claim_C3_transition_validity.2.1 "PENDING" "Assigned" "pending" "assigned"
      (by decide) (by decide),
   claim_C3_transition_validity.2.2.1 "bogus" "assigned" (Or.inl (by decide)),
   (claim_C3_transition_validity.2.2.2.2 "resolved" "closed").2 ⟨by decide, by decide⟩⟩

/-! ## Claim theorems: the auth-dependency token round-trip (C1) -/

deriving instance DecidableEq for Except

/-- A verified citizen account used as a concrete fixture. -/
def sampleUser : User :=
  { id := 1, full_name := "Asha Rao", email := "asha@example.com",
    hashed_password := "hash",
    is_verified := true, failed_login_attempts := 0,
    login_locked_until := none, role := "user", department := none,
    otp_secret := none, otp_expires_at := none, failed_otp_attempts := 0,
    otp_locked_until := none }

/-- A store holding exactly the fixture account. -/
def sampleDB : DB :=
  { users := [sampleUser], complaints := [], issueTypes := [],
    departments := [], histories := [], nextComplaintId := 1,
    nextHistoryId := 1 }

/-- C1 counterexample: the login flow's token for the existing user 1
(issued at time 0, checked well before expiry at time 10) is rejected by
`get_current_user` with 401 "Invalid token payload" instead of returning
the user: the token carries only `user_id` while the dependency reads
`sub`. -/
theorem claim_C1_counterexample :
    get_current_user (loginAccessToken sampleUser 0) sampleDB 10 =
      .error ⟨401, "Invalid token payload"⟩ ∧
    get_current_user (loginAccessToken sampleUser 0) sampleDB 10 ≠
      .ok sampleUser := by
  constructor <;> decide

/-- Any login-flow token is resolved by `get_current_user` to one of two
401 errors, depending only on expiry. -/
lemma get_current_user_login (db : DB) (u : User) (now issued : Int) :
    get_current_user (loginAccessToken u issued) db now =
      if issued + 900 ≤ now then .error ⟨401, "Invalid or expired token"⟩
      else .error ⟨401, "Invalid token payload"⟩ := by
  by_cases hexp : issued + 900 ≤ now <;>
    simp +decide [get_current_user, loginAccessToken, create_access_token,
      verify_token, claimsGet, claimsSet, settings, List.find?, List.filter, hexp]

/-- C1 amended: the authentication dependency reads the `sub` claim, not
`user_id`, so a login-issued token (claims `{user_id}`) is always
rejected with 401 — "Invalid token payload" while unexpired — and is
never accepted for any user; a token signed with the configured
secret/algorithm is accepted exactly when it is unexpired, carries a
`user_id` claim (required by `verify_token`) and a `sub` claim whose value
is the id of an existing user, who is then returned; a `sub` naming no
existing user yields 401 "User not found". -/
theorem claim_C1_token_roundtrip :
    (∀ (db : DB) (u : User) (now issued : Int),
      now < issued + settings.ACCESS_TOKEN_EXPIRE_MINUTES * 60 →
      get_current_user (loginAccessToken u issued) db now =
        .error ⟨401, "Invalid token payload"⟩) ∧
    (∀ (db : DB) (u r : User) (now issued : Int),
      get_current_user (loginAccessToken u issued) db now ≠ .ok r) ∧
    (∀ (db : DB) (claims : List (String × Int)) (now uid e : Int) (u : User),
      claimsGet claims "sub" = some uid →
      (claimsGet claims "user_id").isSome →
      claimsGet claims "exp" = some e → now < e →
      db.findUser uid = some u →
      get_current_user ⟨claims, settings.SECRET_KEY, settings.ALGORITHM⟩ db now = .ok u) ∧
    (∀ (db : DB) (claims : List (String × Int)) (now uid e : Int),
      claimsGet claims "sub" = some uid →
      (claimsGet claims "user_id").isSome →
      claimsGet claims "exp" = some e → now < e →
      db.findUser uid = none →
      get_current_user ⟨claims, settings.SECRET_KEY, settings.ALGORITHM⟩ db now =
        .error ⟨401, "User not found"⟩) := by
  refine ⟨?_, ?_, ?_, ?_⟩
  · intro db u now issued h
    rw [get_current_user_login]
    have hne : ¬(issued + 900 ≤ now) := by simp [settings] at h; omega
    rw [if_neg hne]
  · intro db u r now issued h
    rw [get_current_user_login] at h
    by_cases hexp : issued + 900 ≤ now
    · rw [if_pos hexp] at h; exact Except.noConfusion h
    · rw [if_neg hexp] at h; exact Except.noConfusion h
  · intro db claims now uid e u hsub huid hexp hlt hfind
    have hne : ¬(e ≤ now) := by omega
    obtain ⟨v, hv⟩ := Option.isSome_iff_exists.mp huid
    simp [get_current_user, verify_token, hexp, hne, hv, hsub, hfind]
  · intro db claims now uid e hsub huid hexp hlt hfind
    have hne : ¬(e ≤ now) := by omega
    obtain ⟨v, hv⟩ := Option.isSome_iff_exists.mp huid
    simp [get_current_user, verify_token, hexp, hne, hv, hsub, hfind]

/-- C1 witness: the amended theorem applied to the fixture store at
time 0. -/
theorem claim_C1_witness :
    (0 : Int) < 0 + settings.ACCESS_TOKEN_EXPIRE_MINUTES * 60 ∧
    get_current_user (loginAccessToken sampleUser 0) sampleDB 0 =
      .error ⟨401, "Invalid token payload"⟩ :=
  ⟨by decide, claim_C1_token_roundtrip.1 sampleDB sampleUser 0 0 (by decide)⟩

/-! ## `app/services/complaint_service.py` -/

/-- Python truthiness of an optional string (`None` and `""` are falsy). -/
def pyTruthyStr : Option String → Bool
  | none => false
  | some s => s ≠ ""

/-- Python truthiness of an optional integer (`None` and `0` are falsy). -/
def pyTruthyInt : Option Int → Bool
  | none => false
  | some n => n ≠ 0

/-- `app/schemas/complaint.py` `ComplaintCreate` (post-validation values;
the schema-level `user_id` field is carried but ignored by the service,
which derives the filer from the authenticated caller). -/
structure ComplaintCreate where
  user_id : Int
  issue_type_id : Int
  description : String
  address : String
deriving Repr, DecidableEq

namespace ComplaintService

/-- The row inserted by `ComplaintService.create`: the constructor sets
filer, issue type, description and address; every other column takes its
model default (`status="pending"`, `urgency="medium"`, timestamps) or
stays NULL — in particular `submitted_by` is never set. -/
def newComplaintRow (complaint_data : ComplaintCreate) (db : DB)
    (user_id now : Int) : Complaint :=
  { id := db.nextComplaintId
    user_id := user_id
    submitted_by := none
    issue_type_id := complaint_data.issue_type_id
    description := complaint_data.description
    address := complaint_data.address
    status := "pending"
    department := none
    assigned_to := none
    assigned_at := none
    urgency := "medium"
    resolved_at := none
    resolved_by := none
    resolution_notes := none
    closed_at := none
    closed_by := none
    created_at := now
    updated_at := now }

/-- The NOT NULL constraints of the `complaints` table that the database
checks at INSERT time on the app-created schema: of the non-nullable
columns of `models/complaints.py`, only `submitted_by` (line 32, no
default) can be NULL in a constructor-built row — the service always
supplies the others. -/
def complaintNotNullOk (c : Complaint) : Bool := c.submitted_by.isSome

/-- `ComplaintService.create`: checks the filer and the issue type exist
(404 otherwise) and commits the insert of `newComplaintRow`.  The commit
succeeds only if the row satisfies the table's NOT NULL constraints;
otherwise the database raises IntegrityError, the `except` rolls back and
a 500 "Failed to create complaint" is raised.  Since `newComplaintRow`
never sets `submitted_by`, the failure branch is the one every call with
an existing filer and issue type takes. -/
def create (complaint_data : ComplaintCreate) (db : DB) (user_id : Int)
    (now : Int) : DB × Except ApiError Complaint :=
  match db.findUser user_id with
  | none => (db, .error ⟨404, "User not found"⟩)
  | some _ =>
    match db.findIssueType complaint_data.issue_type_id with
    | none => (db, .error ⟨404, "Issue type not found"⟩)
    | some _ =>
      let new_complaint := newComplaintRow complaint_data db user_id now
      if complaintNotNullOk new_complaint then
        ({ db with complaints := db.complaints ++ [new_complaint],
                   nextComplaintId := db.nextComplaintId + 1 },
         .ok new_complaint)
      else
        (db, .error ⟨500, "Failed to create complaint"⟩)

/-- `ComplaintService.get_by_id`. -/
def get_by_id (complaint_id : Int) (db : DB) : Except ApiError Complaint :=
  match db.findComplaint complaint_id with
  | none => .error ⟨404, "Complaint not found"⟩
  | some complaint => .ok complaint

/-- `ComplaintService._apply_role_filter`: admins keep the whole query;
users keep their own rows; department managers keep their department's
rows; any other role falls back to the always-empty `id == -1` filter. -/
def _apply_role_filter (query : List Complaint) (user : User) : List Complaint :=
  if user.role = "admin" then query
  else if user.role = "user" then query.filter (fun c => c.user_id = user.id)
  else if user.role = "department_manager" then
    query.filter (fun c => c.department = user.department)
  else query.filter (fun c => c.id = -1)

/-- `datetime.strptime(s, "%Y-%m-%d").date()`: `none` models the raised
`ValueError`; a parsed date is embedded on the abstract timeline as
`y*10000 + m*100 + d`. -/
def parseDateYMD (s : String) : Option Int :=
  match (splitOnChar '-' s.data).map digitsVal? with
  | [some y, some m, some d] =>
    if 1 ≤ m ∧ m ≤ 12 ∧ 1 ≤ d ∧ d ≤ 31 then
      some (Int.ofNat (y * 10000 + m * 100 + d))
    else none
  | _ => none

/-- The status equality filter of `list_all`. -/
def filterStatus (query : List Complaint) : Option String → List Complaint
  | none => query
  | some s => query.filter (fun c => c.status = s)

/-- The urgency equality filter of `list_all`. -/
def filterUrgency (query : List Complaint) : Option String → List Complaint
  | none => query
  | some s => query.filter (fun c => c.urgency = s)

/-- The `from_date` filter of `list_all` (400 on a malformed date). -/
def filterFromDate (query : List Complaint) :
    Option String → Except ApiError (List Complaint)
  | none => .ok query
  | some s =>
    match parseDateYMD s with
    | none => .error ⟨400, "Invalid from_date format. Use YYYY-MM-DD"⟩
    | some d => .ok (query.filter (fun c => d ≤ c.created_at))

/-- The `to_date` filter of `list_all` (400 on a malformed date). -/
def filterToDate (query : List Complaint) :
    Option String → Except ApiError (List Complaint)
  | none => .ok query
  | some s =>
    match parseDateYMD s with
    | none => .error ⟨400, "Invalid to_date format. Use YYYY-MM-DD"⟩
    | some d => .ok (query.filter (fun c => c.created_at ≤ d))

/-- The eight-way sort of `list_all`; an unrecognized key falls back to
descending `created_at`.  `insertionSort` realizes a stable sort. -/
def applySort (query : List Complaint) (sort : String) : List Complaint :=
  if sort = "created_at" then
    query.insertionSort (fun a b => a.created_at ≤ b.created_at)
  else if sort = "-created_at" then
    query.insertionSort (fun a b => b.created_at ≤ a.created_at)
  else if sort = "urgency" then
    query.insertionSort (fun a b => a.urgency ≤ b.urgency)
  else if sort = "-urgency" then
    query.insertionSort (fun a b => b.urgency ≤ a.urgency)
  else if sort = "status" then
    query.insertionSort (fun a b => a.status ≤ b.status)
  else if sort = "-status" then
    query.insertionSort (fun a b => b.status ≤ a.status)
  else if sort = "updated_at" then
    query.insertionSort (fun a b => a.updated_at ≤ b.updated_at)
  else if sort = "-updated_at" then
    query.insertionSort (fun a b => b.updated_at ≤ a.updated_at)
  else
    query.insertionSort (fun a b => b.created_at ≤ a.created_at)

/-- The filter pipeline of `list_all` up to (and excluding) the count:
role filter first, then status, urgency and the two date filters. -/
def matchingRows (db : DB) (user : User)
    (status urgency from_date to_date : Option String) :
    Except ApiError (List Complaint) := do
  let q0 := _apply_role_filter db.complaints user
  let q1 := filterStatus q0 status
  let q2 := filterUrgency q1 urgency
  let q3 ← filterFromDate q2 from_date
  filterToDate q3 to_date

/-- The page clamp of `list_all`: `if page < 1: page = 1`. -/
def clampPage (page : Int) : Int := if page < 1 then 1 else page

/-- The page-size clamp of `list_all`: `if page_size < 1: page_size = 20`
then `if page_size > 100: page_size = 100`. -/
def clampPageSize (page_size : Int) : Int :=
  let ps := if page_size < 1 then 20 else page_size
  if ps > 100 then 100 else ps

/-- The offset/limit pagination of `list_all`:
`query.offset((page - 1) * page_size).limit(page_size)` (arguments
already clamped, hence nonnegative). -/
def paginate (l : List Complaint) (page page_size : Int) : List Complaint :=
  (l.drop ((page - 1) * page_size).toNat).take page_size.toNat

/-- `ComplaintService.list_all`: clamps the page (≥1) and page size
(1..100 with default 20), runs the filter pipeline, counts the total
before pagination, sorts, and applies offset/limit pagination. -/
def list_all (db : DB) (user : User)
    (status urgency from_date to_date : Option String)
    (sort : String) (page page_size : Int) :
    Except ApiError (List Complaint × Int) := do
  let page := clampPage page
  let page_size := clampPageSize page_size
  let matched ← matchingRows db user status urgency from_date to_date
  let total_count : Int := matched.length
  let sorted := applySort matched sort
  pure ((paginate sorted page page_size), total_count)

/-- The per-candidate score of `ComplaintService.search`: the maximum of
the fuzzy scores of the lowercased description and address against the
(already stripped and lowercased) query; an empty (falsy) field scores 0.
`ratio` stands for the external `fuzz.token_set_ratio` (0–100). -/
def searchScore (ratio : String → String → Nat) (query : String)
    (c : Complaint) : Nat :=
  max (if c.description ≠ "" then ratio query (lowerStr c.description) else 0)
      (if c.address ≠ "" then ratio query (lowerStr c.address) else 0)

/-- The scored match list of `search`: role-visible candidates whose
maximum score exceeds 70, paired with their score. -/
def searchScored (ratio : String → String → Nat) (db : DB) (user : User)
    (query : String) : List (Complaint × Nat) :=
  (_apply_role_filter db.complaints user).filterMap (fun c =>
    let max_score := searchScore ratio query c
    if max_score > 70 then some (c, max_score) else none)

/-- The matches of `search`, stably sorted by descending score (Python
`list.sort(key=..., reverse=True)`), with the scores dropped. -/
def searchMatches (ratio : String → String → Nat) (db : DB) (user : User)
    (query : String) : List Complaint :=
  ((searchScored ratio db user query).insertionSort
    (fun a b => b.2 ≤ a.2)).map (fun m => m.1)

/-- `ComplaintService.search`: an empty or whitespace-only query yields
`([], 0)` at once; otherwise the query is stripped and lowercased, the
role-visible candidates are scored, matches (score > 70) are sorted by
descending score and paginated in memory by a Python slice. -/
def search (ratio : String → String → Nat) (db : DB) (user : User)
    (query : String) (page page_size : Int) : List Complaint × Int :=
  if query = "" ∨ stripStr query = "" then ([], 0)
  else
    let q := lowerStr (stripStr query)
    let matched_complaints := searchMatches ratio db user q
    let total_count := matched_complaints.length
    let start_idx := (page - 1) * page_size
    let end_idx := start_idx + page_size
    (pySlice matched_complaints start_idx end_idx, Int.ofNat total_count)

end ComplaintService

/-! ## `app/routers/complaints.py` -/

/-- `app/schemas/complaint.py` `PaginationMetadata`. -/
structure PaginationMetadata where
  page : Int
  page_size : Int
  total : Int
  pages : Int
  has_next : Bool
  has_prev : Bool
deriving Repr, DecidableEq

/-- `app/routers/complaints.py` `list_complaints` (route body, after the
`require_any_permission` dependency has admitted `user`): delegates to
`list_all` and computes the pagination metadata from the *raw* `page` and
`page_size` — `pages = ceil(total/page_size)` when `total > 0` else 1
(a zero `page_size` with a positive total divides by zero: 500). -/
def list_complaints (db : DB) (user : User)
    (status urgency from_date to_date : Option String)
    (sort : String) (page page_size : Int) :
    Except ApiError (List Complaint × PaginationMetadata) :=
  match ComplaintService.list_all db user status urgency from_date to_date
      sort page page_size with
  | .error e => .error e
  | .ok (complaints, total_count) =>
    if 0 < total_count ∧ page_size = 0 then
      .error ⟨500, "Internal Server Error"⟩
    else
      let total_pages :=
        if 0 < total_count then pyCeilDiv total_count page_size else 1
      .ok (complaints,
        { page := page
          page_size := page_size
          total := total_count
          pages := total_pages
          has_next := decide (page < total_pages)
          has_prev := decide (1 < page) })

/-! ## `app/services/workflow_service.py` -/

namespace WorkflowService

/-- `WorkflowService._auto_assign_department`: copies the name of the
issue type's parent department onto the complaint when both exist
(`if issue_type and issue_type.department_id:` — a zero id is falsy). -/
def _auto_assign_department (complaint : Complaint) (db : DB) : Complaint :=
  match db.findIssueType complaint.issue_type_id with
  | none => complaint
  | some issue_type =>
    if issue_type.department_id ≠ 0 then
      match db.findDepartment issue_type.department_id with
      | none => complaint
      | some department => { complaint with department := some department.name }
    else complaint

/-- The status-specific side effects of `change_status`, applied to the
complaint after its status was set; the branch guards compare the *raw*
`new_status` string against the enum values. -/
def statusSideEffects (c1 : Complaint) (db : DB) (new_status : String)
    (user : User) (comment : Option String) (now : Int) : Complaint :=
  if new_status = ComplaintStatus.assigned.value then
    let c' := { c1 with assigned_at := some now }
    if ¬ pyTruthyStr c'.department then _auto_assign_department c' db else c'
  else if new_status = ComplaintStatus.in_progress.value then
    if ¬ pyTruthyInt c1.assigned_to then { c1 with assigned_to := some user.id }
    else c1
  else if new_status = ComplaintStatus.resolved.value then
    let c' := { c1 with resolved_at := some now, resolved_by := some user.id }
    if pyTruthyStr comment then { c' with resolution_notes := comment } else c'
  else c1

/-- `WorkflowService.change_status`: loads the complaint (404 otherwise),
validates the transition with `is_valid_transition` (400 otherwise,
nothing mutated), sets the lowercased status, applies the side effects,
and appends exactly one history row committed together with the update. -/
def change_status (db : DB) (complaint_id : Int) (new_status : String)
    (user : User) (comment reason : Option String) (now : Int) :
    DB × Except ApiError Complaint :=
  match db.findComplaint complaint_id with
  | none => (db, .error ⟨404, "Complaint not found"⟩)
  | some complaint =>
    if ¬ is_valid_transition complaint.status new_status then
      (db, .error ⟨400, "Invalid status transition"⟩)
    else
      let old_status := complaint.status
      let c1 := { complaint with status := lowerStr new_status, updated_at := now }
      let c2 := statusSideEffects c1 db new_status user comment now
      let history : HistoryRow :=
        { id := db.nextHistoryId
          complaint_id := complaint_id
          changed_by := user.id
          old_status := some old_status
          new_status := lowerStr new_status
          comment := comment
          reason := reason
          assigned_to := c2.assigned_to
          changed_at := now }
      ({ db.setComplaint complaint_id c2 with
          histories := db.histories ++ [history],
          nextHistoryId := db.nextHistoryId + 1 },
       .ok c2)

/-- `WorkflowService.assign_to_officer`: role gate, complaint and officer
lookups, department restriction for managers; the body of the `try` block
then evaluates `ComplaintStatus.OPEN`, a member the enum does not declare
— the `AttributeError` is caught by the catch-all, the transaction is
rolled back, and a 500 is raised. -/
def assign_to_officer (db : DB) (complaint_id officer_id : Int)
    (user : User) (now : Int) : DB × Except ApiError Complaint :=
  if ¬ (user.role = "admin" ∨ user.role = "department_manager") then
    (db, .error ⟨403, "Only admins and department managers can assign to officers"⟩)
  else
    match db.findComplaint complaint_id with
    | none => (db, .error ⟨404, "Complaint not found"⟩)
    | some complaint =>
      match db.findUser officer_id with
      | none => (db, .error ⟨404, "Officer not found"⟩)
      | some officer =>
        if user.role = "department_manager" ∧ officer.department ≠ user.department then
          (db, .error ⟨403, "Can only assign to officers in your department"⟩)
        else
          let c1 := { complaint with assigned_to := some officer_id,
                                     assigned_at := some now }
          match ComplaintStatus.memberNamed "OPEN" with
          | none => (db, .error ⟨500, "Failed to assign officer"⟩)
          | some st =>
            let c2 := if c1.status = st.value then
                { c1 with status := ComplaintStatus.assigned.value }
              else c1
            (db.setComplaint complaint_id c2, .ok c2)

/-- Runs a sequence of `change_status` requests (new status, time) against
one complaint, stopping at the first failure; the flag reports whether
every request succeeded. -/
def change_status_run (db : DB) (complaint_id : Int) (user : User) :
    List (String × Int) → DB × Bool
  | [] => (db, true)
  | (ns, now) :: rest =>
    match change_status db complaint_id ns user none none now with
    | (db1, .ok _) => change_status_run db1 complaint_id user rest
    | (db1, .error _) => (db1, false)

end WorkflowService

/-- The last history row recorded for a given complaint. -/
def lastHistoryFor (db : DB) (complaint_id : Int) : Option HistoryRow :=
  (db.histories.filter (fun h => h.complaint_id = complaint_id)).getLast?

/-! ## `app/services/auth_service.py` -/

/-- The typed exceptions of `auth_service.py`, plus two untyped Python
exceptions its code can raise: `attributeError` for the access to the
undeclared `User.phone_number` attribute, and `typeError` for the
`None`-comparison `datetime.utcnow() > user.otp_expires_at` when a secret
is on file without an expiry.  Both reach the router's catch-all and
surface as 500. -/
inductive AuthException where
  | valueError (msg : String)
  | accountLocked
  | otpNotSent (msg : String)
  | invalidOTP (remaining : Int)
  | attributeError
  | typeError
deriving Repr, DecidableEq

/-- `if lock and datetime.utcnow() < lock:` — the active-lock test. -/
def pyLockActive (lock : Option Int) (now : Int) : Bool :=
  match lock with
  | some t => now < t
  | none => false

/-- Python attribute access `User.phone_number` on the mapped class:
`app/models/users.py` declares no phone column, so the access raises
AttributeError — modelled as `none` (a `some` value would be the column
accessor). -/
def userPhoneNumberAttr : Option (User → String) := none

namespace AuthService

/-- `AuthService.verify_otp`.  Its first statement,
`db.query(User).filter(User.phone_number == phone_number).first()`,
evaluates `User.phone_number`, which the user model does not declare:
the AttributeError escapes (the router's catch-all turns it into a 500)
before any row is read.  The rest of the function — lock check,
`OTPNotSent` on a missing/expired secret, TOTP check (`totpOk` stands for
the external `pyotp` verification), failed-counter commit with
`InvalidOTP`, the 15-minute lock at 5 cumulative failures, and the
success path that clears OTP state, marks the user verified and issues a
token — is embedded under the `some` accessor branch, which is
unreachable on this model. -/
def verify_otp (db : DB) (phone_number otp_code : String) (now : Int)
    (totpOk : String → String → Bool) :
    DB × Except AuthException Token :=
  match userPhoneNumberAttr with
  | none => (db, .error .attributeError)
  | some phoneOf =>
  match db.users.find? (fun u => phoneOf u = phone_number) with
  | none => (db, .error (.valueError "User not found"))
  | some user =>
    if pyLockActive user.otp_locked_until now then
      (db, .error .accountLocked)
    else if ¬ pyTruthyStr user.otp_secret then
      (db, .error (.otpNotSent "No OTP sent. Request OTP first."))
    else
      match user.otp_expires_at with
      | none => (db, .error .typeError)
      | some expires_at =>
        if now > expires_at then
          (db, .error (.otpNotSent "OTP expired. Request new OTP."))
        else
          let secret := (user.otp_secret).getD ""
          if ¬ totpOk secret otp_code then
            let attempts := user.failed_otp_attempts + 1
            if attempts ≥ 5 then
              (db.setUser user.id
                { user with failed_otp_attempts := attempts,
                            otp_locked_until := some (now + 15 * 60) },
               .error .accountLocked)
            else
              (db.setUser user.id { user with failed_otp_attempts := attempts },
               .error (.invalidOTP (5 - attempts)))
          else
            (db.setUser user.id
              { user with otp_secret := none, otp_expires_at := none,
                          failed_otp_attempts := 0, otp_locked_until := none,
                          is_verified := true },
             .ok (create_access_token [("user_id", user.id)] none now))

end AuthService

/-! ## `app/middleware/permissions.py` -/

/-- `require_complaint_access`: loads the complaint (404 otherwise), then
grants by permission: view-all holders always; view-own holders only when
`complaint.submitted_by == current_user.id`; view-department holders only
on a department match; otherwise 403. -/
def require_complaint_access (complaint_id : Int) (current_user : User)
    (db : DB) : Except ApiError Complaint :=
  match db.findComplaint complaint_id with
  | none => .error ⟨404, "Complaint not found"⟩
  | some complaint =>
    if has_permission current_user.role .view_all_complaints then
      .ok complaint
    else if has_permission current_user.role .view_own_complaints then
      if complaint.submitted_by ≠ some current_user.id then
        .error ⟨403, "You can only access your own complaints"⟩
      else .ok complaint
    else if has_permission current_user.role .view_department_complaints then
      if complaint.department ≠ current_user.department then
        .error ⟨403, "You can only access complaints in your department"⟩
      else .ok complaint
    else .error ⟨403, "Access denied"⟩

/-! ## Shared lemmas about the store -/

lemma find?_id_set (l : List Complaint) (cid : Int) (c : Complaint)
    (hc : c.id = cid) (h : (l.find? (fun x => x.id = cid)).isSome) :
    (l.map (fun x => if x.id = cid then c else x)).find? (fun x => x.id = cid) =
      some c := by
  induction l with
  | nil => simp [List.find?] at h
  | cons a t ih =>
    by_cases ha : a.id = cid
    · simp [List.find?, ha, hc]
    · rw [List.find?_cons_of_neg _ (by simpa using ha)] at h
      simp only [List.map_cons, if_neg ha]
      rw [List.find?_cons_of_neg _ (by simpa using ha)]
      exact ih h

lemma findComplaint_setComplaint (db : DB) (cid : Int) (c : Complaint)
    (hc : c.id = cid) (h : (db.findComplaint cid).isSome) :
    (db.setComplaint cid c).findComplaint cid = some c :=
  find?_id_set db.complaints cid c hc h

lemma create_fails_eq (data : ComplaintCreate) (db : DB) (uid now : Int)
    (u : User) (it : IssueType) (hu : db.findUser uid = some u)
    (hit : db.findIssueType data.issue_type_id = some it) :
    ComplaintService.create data db uid now =
      (db, .error ⟨500, "Failed to create complaint"⟩) := by
  unfold ComplaintService.create
  rw [hu, hit]
  rfl

/-! ## Claim theorems: complaint creation round-trip (C2) -/

/-- C2: the claimed round-trip never happens.  With an existing filer and
issue type, the row the service builds does carry the claimed values
(caller's `user_id`, status `pending`, urgency `medium`) — but it leaves
the non-nullable `submitted_by` column NULL, so the INSERT violates the
schema's NOT NULL constraint (IntegrityError) and every such `create`
call rolls back and returns 500 "Failed to create complaint" with the
store unchanged; a missing filer or issue type still yields the claimed
404s, since those checks run before the insert. -/
theorem claim_C2_create_integrity_failure :
    (∀ (data : ComplaintCreate) (db : DB) (uid now : Int) (u : User) (it : IssueType),
      db.findUser uid = some u →
      db.findIssueType data.issue_type_id = some it →
      ComplaintService.create data db uid now =
        (db, .error ⟨500, "Failed to create complaint"⟩)) ∧
    (∀ (data : ComplaintCreate) (db : DB) (uid now : Int),
      (ComplaintService.newComplaintRow data db uid now).user_id = uid ∧
      (ComplaintService.newComplaintRow data db uid now).status = "pending" ∧
      (ComplaintService.newComplaintRow data db uid now).urgency = "medium" ∧
      (ComplaintService.newComplaintRow data db uid now).submitted_by = none ∧
      ComplaintService.complaintNotNullOk
        (ComplaintService.newComplaintRow data db uid now) = false) ∧
    (∀ data db uid now, db.findUser uid = none →
      ComplaintService.create data db uid now =
        (db, .error ⟨404, "User not found"⟩)) ∧
    (∀ data db uid now u, db.findUser uid = some u →
      db.findIssueType data.issue_type_id = none →
      ComplaintService.create data db uid now =
        (db, .error ⟨404, "Issue type not found"⟩)) := by
  refine ⟨?_, ?_, ?_, ?_⟩
  · intro data db uid now u it hu hit
    exact create_fails_eq data db uid now u it hu hit
  · intro data db uid now
    exact ⟨rfl, rfl, rfl, rfl, rfl⟩
  · intro data db uid now hu
    unfold ComplaintService.create
    rw [hu]
  · intro data db uid now u hu hit
    unfold ComplaintService.create
    rw [hu, hit]

/-- A well-formed complaint-creation payload fixture. -/
def dataFix : ComplaintCreate :=
  { user_id := 1, issue_type_id := 7, description := "Garbage overflowing",
    address := "12 Main Street" }

/-- A store with the fixture user, one issue type and its department. -/
def dbFix : DB :=
  { users := [sampleUser], complaints := [],
    issueTypes := [{ id := 7, name := "Garbage Collection",
                     department_id := 3, is_active := true }],
    departments := [{ id := 3, name := "Sanitation" }],
    histories := [], nextComplaintId := 1, nextHistoryId := 1 }

/-- C2 witness: the fixture user files a valid complaint on the fixture
store and the call fails with the 500, leaving the store unchanged. -/
theorem claim_C2_witness :
    ComplaintService.create dataFix dbFix 1 50 =
      (dbFix, .error ⟨500, "Failed to create complaint"⟩) :=
  claim_C2_create_integrity_failure.1 dataFix dbFix 1 50 sampleUser
    { id := 7, name := "Garbage Collection", department_id := 3, is_active := true }
    (by decide) (by decide)

lemma mem_filterStatus {q : List Complaint} {s : Option String} {c : Complaint}
    (h : c ∈ ComplaintService.filterStatus q s) : c ∈ q := by
  cases s with
  | none => exact h
  | some v => exact (List.mem_filter.mp h).1

lemma mem_filterUrgency {q : List Complaint} {s : Option String} {c : Complaint}
    (h : c ∈ ComplaintService.filterUrgency q s) : c ∈ q := by
  cases s with
  | none => exact h
  | some v => exact (List.mem_filter.mp h).1

lemma mem_filterFromDate {q r : List Complaint} {s : Option String} {c : Complaint}
    (h : ComplaintService.filterFromDate q s = .ok r) (hc : c ∈ r) : c ∈ q := by
  cases s with
  | none =>
    simp only [ComplaintService.filterFromDate] at h
    cases h
    exact hc
  | some v =>
    simp only [ComplaintService.filterFromDate] at h
    cases hp : ComplaintService.parseDateYMD v with
    | none => rw [hp] at h; cases h
    | some d =>
      rw [hp] at h
      cases h
      exact (List.mem_filter.mp hc).1

lemma mem_filterToDate {q r : List Complaint} {s : Option String} {c : Complaint}
    (h : ComplaintService.filterToDate q s = .ok r) (hc : c ∈ r) : c ∈ q := by
  cases s with
  | none =>
    simp only [ComplaintService.filterToDate] at h
    cases h
    exact hc
  | some v =>
    simp only [ComplaintService.filterToDate] at h
    cases hp : ComplaintService.parseDateYMD v with
    | none => rw [hp] at h; cases h
    | some d =>
      rw [hp] at h
      cases h
      exact (List.mem_filter.mp hc).1

lemma mem_applySort {q : List Complaint} {s : String} {c : Complaint} :
    c ∈ ComplaintService.applySort q s ↔ c ∈ q := by
  unfold ComplaintService.applySort
  split_ifs <;> exact (List.perm_insertionSort _ _).mem_iff

lemma matchingRows_ok_mem {db : DB} {user : User}
    {status urgency fd td : Option String} {m : List Complaint} {c : Complaint}
    (h : ComplaintService.matchingRows db user status urgency fd td = .ok m)
    (hc : c ∈ m) : c ∈ ComplaintService._apply_role_filter db.complaints user := by
  unfold ComplaintService.matchingRows at h
  dsimp only at h
  cases h3 : ComplaintService.filterFromDate
      (ComplaintService.filterUrgency
        (ComplaintService.filterStatus
          (ComplaintService._apply_role_filter db.complaints user) status) urgency) fd with
  | error e => rw [h3] at h; exact Except.noConfusion h
  | ok q3 =>
    rw [h3] at h
    have h4 : ComplaintService.filterToDate q3 td = .ok m := h
    exact mem_filterStatus (mem_filterUrgency
      (mem_filterFromDate h3 (mem_filterToDate h4 hc)))

lemma list_all_ok {db : DB} {user : User}
    {status urgency fd td : Option String} {sort : String}
    {page page_size : Int} {rows : List Complaint} {total : Int}
    (h : ComplaintService.list_all db user status urgency fd td sort
      page page_size = .ok (rows, total)) :
    ∃ m, ComplaintService.matchingRows db user status urgency fd td = .ok m ∧
      total = (m.length : Int) ∧
      rows = ComplaintService.paginate (ComplaintService.applySort m sort)
        (ComplaintService.clampPage page) (ComplaintService.clampPageSize page_size) := by
  unfold ComplaintService.list_all at h
  dsimp only at h
  cases hm : ComplaintService.matchingRows db user status urgency fd td with
  | error e => rw [hm] at h; exact Except.noConfusion h
  | ok m =>
    rw [hm] at h
    refine ⟨m, rfl, ?_, ?_⟩
    · have := congrArg (fun p : Except ApiError (List Complaint × Int) =>
        match p with | .ok x => x.2 | .error _ => 0) h
      simpa using this.symm
    · have := congrArg (fun p : Except ApiError (List Complaint × Int) =>
        match p with | .ok x => x.1 | .error _ => []) h
      simpa using this.symm

lemma mem_searchMatches {ratio : String → String → Nat} {db : DB} {user : User}
    {q : String} {c : Complaint}
    (hc : c ∈ ComplaintService.searchMatches ratio db user q) :
    c ∈ ComplaintService._apply_role_filter db.complaints user := by
  unfold ComplaintService.searchMatches at hc
  obtain ⟨p, hp, hpc⟩ := List.mem_map.mp hc
  rw [(List.perm_insertionSort _ _).mem_iff] at hp
  unfold ComplaintService.searchScored at hp
  obtain ⟨a, ha, hfa⟩ := List.mem_filterMap.mp hp
  by_cases hgt : ComplaintService.searchScore ratio q a > 70
  · simp only [if_pos hgt] at hfa
    cases hfa
    exact hpc ▸ ha
  · simp only [if_neg hgt] at hfa
    cases hfa

/-- C6: the role filter admits a stored complaint (ids are positive in
the store) iff the caller is an admin, or has the `user` role and filed it
(`user_id` match), or is a department manager with a matching department;
any other role sees nothing; and every row returned by listing or by
searching passed this filter. -/
theorem claim_C6_role_visibility :
    (∀ (user : User) (l : List Complaint) (c : Complaint),
      (∀ x ∈ l, 0 < x.id) →
      (c ∈ ComplaintService._apply_role_filter l user ↔
        c ∈ l ∧ (user.role = "admin" ∨
          (user.role = "user" ∧ c.user_id = user.id) ∨
          (user.role = "department_manager" ∧ c.department = user.department)))) ∧
    (∀ db user status urgency from_date to_date sort
        (page page_size : Int) rows total,
      ComplaintService.list_all db user status urgency from_date to_date sort
        page page_size = .ok (rows, total) →
      ∀ c ∈ rows, c ∈ ComplaintService._apply_role_filter db.complaints user) ∧
    (∀ ratio db user q (page page_size : Int),
      ∀ c ∈ (ComplaintService.search ratio db user q page page_size).1,
        c ∈ ComplaintService._apply_role_filter db.complaints user) := by
  refine ⟨?_, ?_, ?_⟩
  · intro user l c hpos
    unfold ComplaintService._apply_role_filter
    by_cases h1 : user.role = "admin"
    · simp [h1]
    · by_cases h2 : user.role = "user"
      · simp [h1, h2, List.mem_filter]
      · by_cases h3 : user.role = "department_manager"
        · simp [h1, h2, h3, List.mem_filter]
        · simp only [if_neg h1, if_neg h2, if_neg h3]
          constructor
          · intro h
            exfalso
            have hmem := (List.mem_filter.mp h).1
            have hid := (List.mem_filter.mp h).2
            have := hpos c hmem
            simp only [decide_eq_true_eq] at hid
            omega
          · rintro ⟨hcl, (h | ⟨h, -⟩ | ⟨h, -⟩)⟩ <;> [exact absurd h h1;
              exact absurd h h2; exact absurd h h3]
  · intro db user st ur fd td sort page ps rows total h c hc
    obtain ⟨m, hm, -, hrows⟩ := list_all_ok h
    subst hrows
    unfold ComplaintService.paginate at hc
    have h1 : c ∈ ComplaintService.applySort m sort :=
      List.mem_of_mem_drop (List.mem_of_mem_take hc)
    exact matchingRows_ok_mem hm (mem_applySort.mp h1)
  · intro ratio db user q page ps c hc
    unfold ComplaintService.search at hc
    by_cases hq : q = "" ∨ stripStr q = ""
    · rw [if_pos hq] at hc
      simp at hc
    · rw [if_neg hq] at hc
      unfold pySlice at hc
      dsimp only at hc
      exact mem_searchMatches (List.mem_of_mem_take (List.mem_of_mem_drop hc))



def mgrUser : User :=
  { id := 2, full_name := "Meera Iyer", email := "meera@example.com",
    hashed_password := "hash2",
    is_verified := true, failed_login_attempts := 0,
    login_locked_until := none, role := "department_manager",
    department := some "Sanitation", otp_secret := none,
    otp_expires_at := none, failed_otp_attempts := 0,
    otp_locked_until := none }

def cFix : Complaint :=
  { id := 1, user_id := 1, submitted_by := none, issue_type_id := 7,
    description := "Garbage overflowing", address := "12 Main Street",
    status := "pending", department := some "Sanitation",
    assigned_to := none, assigned_at := none, urgency := "medium",
    resolved_at := none, resolved_by := none, resolution_notes := none,
    closed_at := none, closed_by := none, created_at := 10, updated_at := 10 }

/-- C6 witness: the filter characterization at a concrete manager and a
complaint of the manager's department. -/
theorem claim_C6_witness :
    cFix ∈ ComplaintService._apply_role_filter [cFix] mgrUser ↔
      cFix ∈ [cFix] ∧ (mgrUser.role = "admin" ∨
        (mgrUser.role = "user" ∧ cFix.user_id = mgrUser.id) ∨
        (mgrUser.role = "department_manager" ∧
          cFix.department = mgrUser.department)) :=
  claim_C6_role_visibility.1 mgrUser [cFix] cFix (by decide)

/-- C10: `ComplaintService.create` never sets `submitted_by` on the row
it builds, though the model declares the column non-nullable — and on the
app-created schema this is exactly why the insert fails: every create
with an existing filer and issue type returns 500 with nothing persisted,
so no complaint is ever created through this path.  The single-complaint
gate itself is as claimed: a caller with only the view-own permission
(`user` role) is granted access exactly when `submitted_by` equals the
caller's id, and its decision never consults `user_id`. -/
theorem claim_C10_submitted_by_gap :
    (∀ (data : ComplaintCreate) (db : DB) (uid now : Int),
      (ComplaintService.newComplaintRow data db uid now).submitted_by = none) ∧
    (∀ (data : ComplaintCreate) (db : DB) (uid now : Int) (u : User) (it : IssueType),
      db.findUser uid = some u →
      db.findIssueType data.issue_type_id = some it →
      ComplaintService.create data db uid now =
        (db, .error ⟨500, "Failed to create complaint"⟩)) ∧
    (∀ (db : DB) (cid : Int) (u : User) (c : Complaint),
      u.role = "user" → db.findComplaint cid = some c →
      (require_complaint_access cid u db = .ok c ↔ c.submitted_by = some u.id)) ∧
    (∀ (db : DB) (cid : Int) (u : User) (c : Complaint) (v : Int),
      db.findComplaint cid = some c →
      (require_complaint_access cid u
        (db.setComplaint cid { c with user_id := v })).isOk =
      (require_complaint_access cid u db).isOk) := by
  refine ⟨?_, ?_, ?_, ?_⟩
  · intro data db uid now
    rfl
  · intro data db uid now u it hu hit
    exact create_fails_eq data db uid now u it hu hit
  · intro db cid u c hrole hfind
    unfold require_complaint_access
    rw [hfind, hrole]
    by_cases hs : c.submitted_by = some u.id
    · simp +decide [has_permission, ROLE_PERMISSIONS, hs]
    · simp +decide [has_permission, ROLE_PERMISSIONS, hs]
  · intro db cid u c v hfind
    have hfind2 : (db.setComplaint cid { c with user_id := v }).findComplaint cid =
        some { c with user_id := v } := by
      apply findComplaint_setComplaint
      · simpa using (by simpa using List.find?_some hfind : c.id = cid)
      · rw [hfind]; rfl
    unfold require_complaint_access
    rw [hfind, hfind2]
    dsimp only
    split_ifs <;> rfl

/-- C10 witness: on the fixture store, user 1's valid create fails with
the 500, and the gate decision on a stored NULL-`submitted_by` complaint
reduces to the (false) `submitted_by` match — `user_id` is ignored. -/
theorem claim_C10_witness :
    ComplaintService.create dataFix dbFix 1 50 =
      (dbFix, .error ⟨500, "Failed to create complaint"⟩) ∧
    (require_complaint_access 1 sampleUser
        { users := [sampleUser], complaints := [cFix], issueTypes := [],
          departments := [], histories := [], nextComplaintId := 2,
          nextHistoryId := 1 } = .ok cFix ↔
      cFix.submitted_by = some sampleUser.id) :=
  ⟨claim_C10_submitted_by_gap.2.1 dataFix dbFix 1 50 sampleUser
     { id := 7, name := "Garbage Collection", department_id := 3, is_active := true }
     (by decide) (by decide),
   claim_C10_submitted_by_gap.2.2.1
     { users := [sampleUser], complaints := [cFix], issueTypes := [],
       departments := [], histories := [], nextComplaintId := 2,
       nextHistoryId := 1 } 1 sampleUser cFix (by decide) (by decide)⟩

/-! ## Claim theorems: OTP lockout policy (C5) -/

/-- A fixture user mid-OTP-verification with 4 failures on record. -/
def otpUser : User :=
  { id := 3, full_name := "Ravi Kumar", email := "ravi@example.com",
    hashed_password := "hash3",
    is_verified := false, failed_login_attempts := 0,
    login_locked_until := none, role := "user", department := none,
    otp_secret := some "JBSWY3DPEHPK3PXP", otp_expires_at := some 100,
    failed_otp_attempts := 4, otp_locked_until := none }

/-- A store holding only `otpUser`. -/
def otpDB : DB :=
  { users := [otpUser], complaints := [], issueTypes := [],
    departments := [], histories := [], nextComplaintId := 1,
    nextHistoryId := 1 }

/-- C5: every call of `AuthService.verify_otp` fails before any OTP state
is read or written — its first statement evaluates `User.phone_number`, a
column `app/models/users.py` does not declare, so an AttributeError is
raised (500 through the router's catch-all) and no counter is ever
incremented, no lock ever set, and no user ever verified: the claimed
lockout policy is unreachable. -/
theorem claim_C5_otp_lockout :
    ∀ (db : DB) (phone_number otp_code : String) (now : Int)
      (totpOk : String → String → Bool),
      AuthService.verify_otp db phone_number otp_code now totpOk =
        (db, .error .attributeError) := by
  intro db phone_number otp_code now totpOk
  rfl

/-- C5 witness: the fixture user — unexpired secret, 4 failures on
record — submits a wrong code, and the call still fails with the
AttributeError, leaving the store untouched. -/
theorem claim_C5_witness :
    AuthService.verify_otp otpDB "+919900112233" "000000" 50
        (fun _ _ => false) =
      (otpDB, .error .attributeError) :=
  claim_C5_otp_lockout otpDB "+919900112233" "000000" 50 (fun _ _ => false)

/-! ## Claim theorems: officer assignment (C9) and status history (C4) -/

/-- An administrator fixture. -/
def adminUser : User :=
  { id := 9, full_name := "Admin One", email := "admin@example.com",
    hashed_password := "hash9",
    is_verified := true, failed_login_attempts := 0,
    login_locked_until := none, role := "admin", department := none,
    otp_secret := none, otp_expires_at := none, failed_otp_attempts := 0,
    otp_locked_until := none }

/-- A workflow fixture store: one pending complaint, its issue type and
department, an admin and a citizen. -/
def wfDB : DB :=
  { users := [adminUser, sampleUser], complaints := [cFix],
    issueTypes := [{ id := 7, name := "Garbage Collection",
                     department_id := 3, is_active := true }],
    departments := [{ id := 3, name := "Sanitation" }],
    histories := [], nextComplaintId := 2, nextHistoryId := 1 }

/-- C9: whenever the role gate, both lookups and the department
restriction of `assign_to_officer` all pass, the body still fails — it
evaluates the nonexistent `ComplaintStatus.OPEN`, so the transaction is
rolled back and a 500 returned with nothing persisted; the claimed
success path (set assignee and timestamp, advance `pending` to
`assigned`) is unreachable. -/
theorem claim_C9_assign_officer_crash :
    ∀ (db : DB) (cid oid : Int) (u : User) (now : Int)
      (c : Complaint) (o : User),
      (u.role = "admin" ∨ u.role = "department_manager") →
      db.findComplaint cid = some c →
      db.findUser oid = some o →
      (u.role = "department_manager" → o.department = u.department) →
      WorkflowService.assign_to_officer db cid oid u now =
        (db, .error ⟨500, "Failed to assign officer"⟩) := by
  intro db cid oid u now c o hrole hc ho hdept
  have hnotnot : ¬¬(u.role = "admin" ∨ u.role = "department_manager") :=
    not_not_intro hrole
  have hguard : ¬(u.role = "department_manager" ∧ o.department ≠ u.department) :=
    fun h => h.2 (hdept h.1)
  have hopen : ComplaintStatus.memberNamed "OPEN" = none := by decide
  unfold WorkflowService.assign_to_officer
  rw [if_neg hnotnot, hc, ho]
  dsimp only
  rw [if_neg hguard, hopen]

/-- C9 witness: the admin assigning officer 1 to complaint 1 on the
fixture store gets the 500 and the store is unchanged. -/
theorem claim_C9_witness :
    WorkflowService.assign_to_officer wfDB 1 1 adminUser 60 =
      (wfDB, .error ⟨500, "Failed to assign officer"⟩) :=
  claim_C9_assign_officer_crash wfDB 1 1 adminUser 60 cFix sampleUser (Or.inl (by decide))
    (by decide) (by decide) (fun h => absurd h (by decide))

lemma statusSideEffects_id_status (c1 : Complaint) (db : DB) (ns : String)
    (u : User) (cm : Option String) (now : Int) :
    (WorkflowService.statusSideEffects c1 db ns u cm now).id = c1.id ∧
    (WorkflowService.statusSideEffects c1 db ns u cm now).status = c1.status := by
  unfold WorkflowService.statusSideEffects WorkflowService._auto_assign_department
  constructor <;> (dsimp only; repeat' split) <;> rfl

/-- The complaint row as mutated by a successful `change_status`. -/
def changedComplaint (c : Complaint) (db : DB) (ns : String) (u : User)
    (cm : Option String) (now : Int) : Complaint :=
  WorkflowService.statusSideEffects
    { c with status := lowerStr ns, updated_at := now } db ns u cm now

/-- The history row appended by a successful `change_status`. -/
def appendedHistory (c : Complaint) (db : DB) (cid : Int) (ns : String)
    (u : User) (cm rs : Option String) (now : Int) : HistoryRow :=
  { id := db.nextHistoryId, complaint_id := cid, changed_by := u.id,
    old_status := some c.status, new_status := lowerStr ns,
    comment := cm, reason := rs,
    assigned_to := (changedComplaint c db ns u cm now).assigned_to,
    changed_at := now }

lemma change_status_notfound_eq {db : DB} {cid : Int} {ns : String} {u : User}
    {cm rs : Option String} {now : Int}
    (hf : db.findComplaint cid = none) :
    WorkflowService.change_status db cid ns u cm rs now =
      (db, .error ⟨404, "Complaint not found"⟩) := by
  unfold WorkflowService.change_status
  rw [hf]

lemma change_status_invalid_eq {db : DB} {cid : Int} {ns : String} {u : User}
    {cm rs : Option String} {now : Int} {c : Complaint}
    (hf : db.findComplaint cid = some c)
    (hv : is_valid_transition c.status ns = false) :
    WorkflowService.change_status db cid ns u cm rs now =
      (db, .error ⟨400, "Invalid status transition"⟩) := by
  unfold WorkflowService.change_status
  rw [hf]
  dsimp only
  rw [if_pos (by simp [hv])]

lemma change_status_valid_eq {db : DB} {cid : Int} {ns : String} {u : User}
    {cm rs : Option String} {now : Int} {c : Complaint}
    (hf : db.findComplaint cid = some c)
    (hv : is_valid_transition c.status ns = true) :
    WorkflowService.change_status db cid ns u cm rs now =
      ({ db.setComplaint cid (changedComplaint c db ns u cm now) with
          histories := db.histories ++ [appendedHistory c db cid ns u cm rs now],
          nextHistoryId := db.nextHistoryId + 1 },
       .ok (changedComplaint c db ns u cm now)) := by
  unfold WorkflowService.change_status
  rw [hf]
  dsimp only
  rw [if_neg (not_not_intro hv)]
  rfl

lemma change_status_ok_spec {db : DB} {cid : Int} {ns : String} {u : User}
    {cm rs : Option String} {now : Int} {db' : DB} {c2 : Complaint}
    (h : WorkflowService.change_status db cid ns u cm rs now = (db', .ok c2)) :
    ∃ c, db.findComplaint cid = some c ∧
      is_valid_transition c.status ns = true ∧
      db'.histories = db.histories ++ [appendedHistory c db cid ns u cm rs now] ∧
      c2.status = lowerStr ns ∧
      db'.findComplaint cid = some c2 := by
  cases hf : db.findComplaint cid with
  | none =>
    rw [change_status_notfound_eq hf] at h
    injection h with hdb hres
    exact Except.noConfusion hres
  | some c =>
    by_cases hv : is_valid_transition c.status ns = true
    · rw [change_status_valid_eq hf hv] at h
      injection h with hdb hres
      injection hres with hc2
      have hcid : c.id = cid := by simpa using List.find?_some hf
      refine ⟨c, rfl, hv, ?_, ?_, ?_⟩
      · rw [← hdb]
      · rw [← hc2]
        exact (statusSideEffects_id_status _ db ns u cm now).2
      · rw [← hdb, ← hc2]
        show (db.setComplaint cid _).findComplaint cid = _
        apply findComplaint_setComplaint
        · unfold changedComplaint
          rw [(statusSideEffects_id_status _ db ns u cm now).1]
          exact hcid
        · rw [hf]; rfl
    · rw [change_status_invalid_eq hf (by simpa using hv)] at h
      injection h with hdb hres
      exact Except.noConfusion hres

lemma change_status_run_last {cid : Int} {u : User} :
    ∀ (reqs : List (String × Int)) (db : DB), reqs ≠ [] →
      (WorkflowService.change_status_run db cid u reqs).2 = true →
      ∃ row, lastHistoryFor (WorkflowService.change_status_run db cid u reqs).1 cid =
          some row ∧
        (((WorkflowService.change_status_run db cid u reqs).1.findComplaint cid).map
          (fun c => c.status)) = some row.new_status := by
  intro reqs
  induction reqs with
  | nil => intro db hne _; exact absurd rfl hne
  | cons x rest ih =>
    intro db _ hok
    obtain ⟨ns, now⟩ := x
    cases hstep : WorkflowService.change_status db cid ns u none none now with
    | mk db1 r =>
      cases r with
      | error e =>
        have hfalse : (WorkflowService.change_status_run db cid u ((ns, now) :: rest)).2 =
            false := by
          unfold WorkflowService.change_status_run
          rw [hstep]
        rw [hfalse] at hok
        exact Bool.noConfusion hok
      | ok c2 =>
        have hrun : WorkflowService.change_status_run db cid u ((ns, now) :: rest) =
            WorkflowService.change_status_run db1 cid u rest := by
          simp only [WorkflowService.change_status_run, hstep]
        rw [hrun] at hok ⊢
        cases rest with
        | nil =>
          obtain ⟨c, hf, hvalid, hhist, hstat, hfind⟩ := change_status_ok_spec hstep
          show ∃ row, lastHistoryFor db1 cid = some row ∧
            ((db1.findComplaint cid).map (fun c => c.status)) = some row.new_status
          refine ⟨appendedHistory c db cid ns u none none now, ?_, ?_⟩
          · unfold lastHistoryFor
            rw [hhist, List.filter_append]
            have hkeep : List.filter (fun h => h.complaint_id = cid)
                [appendedHistory c db cid ns u none none now] =
                [appendedHistory c db cid ns u none none now] := by
              rw [List.filter_cons]
              simp [appendedHistory]
            rw [hkeep, List.getLast?_concat]
          · rw [hfind]
            simp [hstat, appendedHistory]
        | cons y t =>
          exact ih db1 (by simp) hok



/-- C4: a disallowed transition returns 400 leaving the store (complaint
and history) untouched; every successful `change_status` appends exactly
one history row whose `old_status` is the complaint's status immediately
before the call and whose `new_status` is the (lowercased) requested
state, which also becomes the complaint's status; and after any nonempty
sequence of successful transitions the complaint's status equals the last
history row's `new_status`. -/
theorem claim_C4_status_history :
    (∀ (db : DB) (cid : Int) (ns : String) (u : User) (cm rs : Option String)
        (now : Int) (c : Complaint),
      db.findComplaint cid = some c →
      is_valid_transition c.status ns = false →
      WorkflowService.change_status db cid ns u cm rs now =
        (db, .error ⟨400, "Invalid status transition"⟩)) ∧
    (∀ (db db' : DB) (cid : Int) (ns : String) (u : User)
        (cm rs : Option String) (now : Int) (c2 : Complaint),
      WorkflowService.change_status db cid ns u cm rs now = (db', .ok c2) →
      ∃ c, db.findComplaint cid = some c ∧
        db'.histories = db.histories ++ [appendedHistory c db cid ns u cm rs now] ∧
        (appendedHistory c db cid ns u cm rs now).old_status = some c.status ∧
        (appendedHistory c db cid ns u cm rs now).new_status = lowerStr ns ∧
        c2.status = lowerStr ns ∧ db'.findComplaint cid = some c2) ∧
    (∀ (db : DB) (cid : Int) (u : User) (reqs : List (String × Int)),
      reqs ≠ [] →
      (WorkflowService.change_status_run db cid u reqs).2 = true →
      ∃ row, lastHistoryFor (WorkflowService.change_status_run db cid u reqs).1 cid =
          some row ∧
        (((WorkflowService.change_status_run db cid u reqs).1.findComplaint cid).map
          (fun c => c.status)) = some row.new_status) := by
  refine ⟨?_, ?_, ?_⟩
  · intro db cid ns u cm rs now c hf hv
    exact change_status_invalid_eq hf hv
  · intro db db' cid ns u cm rs now c2 h
    obtain ⟨c, hf, _, hh, hs, hfc⟩ := change_status_ok_spec h
    exact ⟨c, hf, hh, rfl, rfl, hs, hfc⟩
  · intro db cid u reqs hne hok
    exact change_status_run_last reqs db hne hok

/-- C4 witness: running `pending→assigned→in_progress` on the fixture
store succeeds and the final status matches the last history row. -/
theorem claim_C4_witness :
    (WorkflowService.change_status_run wfDB 1 adminUser
      [("assigned", 70), ("in_progress", 80)]).2 = true ∧
    ∃ row, lastHistoryFor (WorkflowService.change_status_run wfDB 1 adminUser
        [("assigned", 70), ("in_progress", 80)]).1 1 = some row ∧
      (((WorkflowService.change_status_run wfDB 1 adminUser
        [("assigned", 70), ("in_progress", 80)]).1.findComplaint 1).map
        (fun c => c.status)) = some row.new_status :=
  ⟨by decide,
   claim_C4_status_history.2.2 wfDB 1 adminUser [("assigned", 70), ("in_progress", 80)]
     (by decide) (by decide)⟩

/-! ## Claim theorems: fuzzy search semantics (C8) -/

instance : IsTotal (Complaint × Nat) (fun a b => b.2 ≤ a.2) :=
  ⟨fun a b => le_total b.2 a.2⟩

instance : IsTrans (Complaint × Nat) (fun a b => b.2 ≤ a.2) :=
  ⟨fun _ _ _ h1 h2 => le_trans h2 h1⟩

lemma searchScored_mem_iff {ratio : String → String → Nat} {db : DB}
    {user : User} {q : String} {p : Complaint × Nat} :
    p ∈ ComplaintService.searchScored ratio db user q ↔
      p.1 ∈ ComplaintService._apply_role_filter db.complaints user ∧
      p.2 = ComplaintService.searchScore ratio q p.1 ∧ p.2 > 70 := by
  unfold ComplaintService.searchScored
  rw [List.mem_filterMap]
  constructor
  · rintro ⟨a, ha, hfa⟩
    dsimp only at hfa
    by_cases h : ComplaintService.searchScore ratio q a > 70
    · rw [if_pos h] at hfa
      cases hfa
      exact ⟨ha, rfl, h⟩
    · rw [if_neg h] at hfa
      cases hfa
  · rintro ⟨h1, h2, h3⟩
    refine ⟨p.1, h1, ?_⟩
    dsimp only
    have h3' : ComplaintService.searchScore ratio q p.1 > 70 := h2 ▸ h3
    rw [if_pos h3', ← h2]

lemma mem_searchMatches_iff {ratio : String → String → Nat} {db : DB}
    {user : User} {q : String} {c : Complaint} :
    c ∈ ComplaintService.searchMatches ratio db user q ↔
      c ∈ ComplaintService._apply_role_filter db.complaints user ∧
      ComplaintService.searchScore ratio q c > 70 := by
  unfold ComplaintService.searchMatches
  rw [List.mem_map]
  constructor
  · rintro ⟨p, hp, hpc⟩
    rw [(List.perm_insertionSort _ _).mem_iff] at hp
    obtain ⟨h1, h2, h3⟩ := searchScored_mem_iff.mp hp
    subst hpc
    exact ⟨h1, h2 ▸ h3⟩
  · rintro ⟨h1, h2⟩
    refine ⟨(c, ComplaintService.searchScore ratio q c), ?_, rfl⟩
    rw [(List.perm_insertionSort _ _).mem_iff]
    exact searchScored_mem_iff.mpr ⟨h1, rfl, h2⟩

lemma searchMatches_sorted (ratio : String → String → Nat) (db : DB)
    (user : User) (q : String) :
    List.Pairwise (fun c1 c2 => ComplaintService.searchScore ratio q c2 ≤
      ComplaintService.searchScore ratio q c1)
      (ComplaintService.searchMatches ratio db user q) := by
  unfold ComplaintService.searchMatches
  rw [List.pairwise_map]
  have hs := List.sorted_insertionSort (fun a b : Complaint × Nat => b.2 ≤ a.2)
    (ComplaintService.searchScored ratio db user q)
  refine hs.imp_of_mem ?_
  intro p1 p2 hp1 hp2 hr
  rw [(List.perm_insertionSort _ _).mem_iff] at hp1 hp2
  obtain ⟨-, h2a, -⟩ := searchScored_mem_iff.mp hp1
  obtain ⟨-, h2b, -⟩ := searchScored_mem_iff.mp hp2
  rw [← h2a, ← h2b]
  exact hr

/-- C8: an empty or whitespace-only query returns `([], 0)` immediately —
for every scoring function, so no candidate is scored; otherwise a
complaint is among the matches iff it is role-visible and the maximum of
the fuzzy scores of its description and address against the normalized
query exceeds 70; the matches are ordered by descending score; and the
returned page is a Python slice of that ordered list. -/
theorem claim_C8_search :
    (∀ (ratio : String → String → Nat) (db : DB) (user : User) (q : String)
        (page page_size : Int),
      stripStr q = "" →
      ComplaintService.search ratio db user q page page_size = ([], 0)) ∧
    (∀ (ratio : String → String → Nat) (db : DB) (user : User) (q : String)
        (c : Complaint),
      c ∈ ComplaintService.searchMatches ratio db user q ↔
        c ∈ ComplaintService._apply_role_filter db.complaints user ∧
          ComplaintService.searchScore ratio q c > 70) ∧
    (∀ (ratio : String → String → Nat) (db : DB) (user : User) (q : String),
      List.Pairwise (fun c1 c2 => ComplaintService.searchScore ratio q c2 ≤
        ComplaintService.searchScore ratio q c1)
        (ComplaintService.searchMatches ratio db user q)) ∧
    (∀ (ratio : String → String → Nat) (db : DB) (user : User) (q : String)
        (page page_size : Int),
      stripStr q ≠ "" →
      ComplaintService.search ratio db user q page page_size =
        (pySlice (ComplaintService.searchMatches ratio db user
            (lowerStr (stripStr q)))
          ((page - 1) * page_size) ((page - 1) * page_size + page_size),
         Int.ofNat (ComplaintService.searchMatches ratio db user
            (lowerStr (stripStr q))).length)) := by
  refine ⟨?_, ?_, ?_, ?_⟩
  · intro ratio db user q page page_size h
    unfold ComplaintService.search
    rw [if_pos (Or.inr h)]
  · intro ratio db user q c
    exact mem_searchMatches_iff
  · intro ratio db user q
    exact searchMatches_sorted ratio db user q
  · intro ratio db user q page page_size h
    have hcond : ¬(q = "" ∨ stripStr q = "") := by
      rintro (rfl | h2)
      · exact h rfl
      · exact h h2
    unfold ComplaintService.search
    rw [if_neg hcond]

/-- C8 witness: a whitespace-only query returns nothing even under a
scorer that rates everything 100, and the membership characterization at
a concrete store. -/
theorem claim_C8_witness :
    ComplaintService.search (fun _ _ => 100) dbFix sampleUser "   " 1 20 =
      ([], 0) ∧
    (cFix ∈ ComplaintService.searchMatches (fun _ _ => 100) wfDB adminUser
        "garbage" ↔
      cFix ∈ ComplaintService._apply_role_filter wfDB.complaints adminUser ∧
        ComplaintService.searchScore (fun _ _ => 100) "garbage" cFix > 70) :=
  ⟨claim_C8_search.1 (fun _ _ => 100) dbFix sampleUser "   " 1 20 (by decide),
   claim_C8_search.2.1 (fun _ _ => 100) wfDB adminUser "garbage" cFix⟩

/-! ## Claim theorems: list pagination bounds and metadata (C7) -/

lemma list_all_ok_eq {db : DB} {user : User}
    {status urgency fd td : Option String} {sort : String}
    {page page_size : Int} {m : List Complaint}
    (hm : ComplaintService.matchingRows db user status urgency fd td = .ok m) :
    ComplaintService.list_all db user status urgency fd td sort page page_size =
      .ok (ComplaintService.paginate (ComplaintService.applySort m sort)
            (ComplaintService.clampPage page) (ComplaintService.clampPageSize page_size),
        (m.length : Int)) := by
  unfold ComplaintService.list_all
  rw [hm]
  rfl

/-- C7 amended: the service clamps the page to ≥ 1 and the page size into
1..100 (default 20) for row retrieval; the endpoint's `total` is the
pre-pagination count of the rows matching the role and query filters; but
the metadata is computed from the raw `page`/`page_size`, and
`pages = ceil(total/page_size)` only when `total > 0` — an empty result
reports `pages = 1`, not `ceil(0/page_size) = 0`; `has_next`/`has_prev`
use the raw page number. -/
theorem claim_C7_pagination :
    (∀ (db : DB) (user : User) (status urgency fd td : Option String)
        (sort : String) (page page_size : Int) (m : List Complaint),
      ComplaintService.matchingRows db user status urgency fd td = .ok m →
      page_size ≠ 0 →
      list_complaints db user status urgency fd td sort page page_size =
        .ok (ComplaintService.paginate (ComplaintService.applySort m sort)
              (ComplaintService.clampPage page)
              (ComplaintService.clampPageSize page_size),
          { page := page, page_size := page_size, total := (m.length : Int),
            pages := if 0 < (m.length : Int)
              then pyCeilDiv (m.length : Int) page_size else 1,
            has_next := decide (page < (if 0 < (m.length : Int)
              then pyCeilDiv (m.length : Int) page_size else 1)),
            has_prev := decide (1 < page) })) ∧
    (∀ p : Int, p < 1 → ComplaintService.clampPage p = 1) ∧
    (∀ p : Int, 1 ≤ p → ComplaintService.clampPage p = p) ∧
    (∀ ps : Int, ps < 1 → ComplaintService.clampPageSize ps = 20) ∧
    (∀ ps : Int, 100 < ps → ComplaintService.clampPageSize ps = 100) ∧
    (∀ ps : Int, 1 ≤ ps → ps ≤ 100 → ComplaintService.clampPageSize ps = ps) := by
  refine ⟨?_, ?_, ?_, ?_, ?_, ?_⟩
  · intro db user status urgency fd td sort page page_size m hm hps
    unfold list_complaints
    rw [list_all_ok_eq hm]
    dsimp only
    rw [if_neg (fun h => hps h.2)]
  · intro p h
    unfold ComplaintService.clampPage
    rw [if_pos h]
  · intro p h
    unfold ComplaintService.clampPage
    rw [if_neg (by omega)]
  · intro ps h
    unfold ComplaintService.clampPageSize
    dsimp only
    rw [if_pos h]
    decide
  · intro ps h
    unfold ComplaintService.clampPageSize
    dsimp only
    rw [if_neg (by omega : ¬ ps < 1), if_pos (by omega : ps > 100)]
  · intro ps h1 h2
    unfold ComplaintService.clampPageSize
    dsimp only
    rw [if_neg (by omega : ¬ ps < 1), if_neg (by omega : ¬ ps > 100)]

/-- C7 counterexample: with no matching rows (`total = 0`) the endpoint
reports `pages = 1`, while the claimed formula gives
`ceil(0/20) = 0`. -/
theorem claim_C7_counterexample :
    list_complaints dbFix sampleUser none none none none "-created_at" 1 20 =
      .ok ([], { page := 1, page_size := 20, total := 0, pages := 1,
                 has_next := false, has_prev := false }) ∧
    pyCeilDiv 0 20 = 0 ∧ (1 : Int) ≠ pyCeilDiv 0 20 := by
  refine ⟨?_, ?_, ?_⟩ <;> decide

/-- C7 witness: the amended metadata equation on a store with one
complaint, page 1, page size 2. -/
theorem claim_C7_witness :
    list_complaints wfDB adminUser none none none none "-created_at" 1 2 =
      .ok (ComplaintService.paginate
            (ComplaintService.applySort [cFix] "-created_at")
            (ComplaintService.clampPage 1) (ComplaintService.clampPageSize 2),
        { page := 1, page_size := 2,
          total := (([cFix] : List Complaint).length : Int),
          pages := if 0 < (([cFix] : List Complaint).length : Int)
            then pyCeilDiv (([cFix] : List Complaint).length : Int) 2 else 1,
          has_next := decide ((1 : Int) < (if 0 < (([cFix] : List Complaint).length : Int)
            then pyCeilDiv (([cFix] : List Complaint).length : Int) 2 else 1)),
          has_prev := decide ((1 : Int) < 1) }) :=
  claim_C7_pagination.1 wfDB adminUser none none none none "-created_at" 1 2 [cFix]
    (by decide) (by decide)

end Portal
